import Mathlib

/-!
Shallow embedding of spaudiopy IO.py: the HRTF loader `load_hrirs` and the
SSR BRIR sweep writers `write_ssr_brirs_loudspeaker` and
`write_ssr_brirs_sdm`, together with proofs of the specified properties.

Audio samples are modelled as rationals (exact arithmetic in place of the
float arithmetic of numpy); angles in radians are modelled as real numbers
because `np.deg2rad` multiplies by pi / 180.  External collaborators
(`hull.binauralize`, `sdm.render_bsdm`, `scipy.io.loadmat`) are parameters
of the embedding, matching the spec, which treats them as black boxes with
a fixed contract.
-/

namespace Spaudiopy

/-- Contents of an HRTF .mat container, as read by `scipy.io.loadmat` and
unpacked by `load_hrirs` (fields `hrir_l`, `hrir_r`, `SamplingRate`,
`azi`, `elev`). -/
structure MatHRTF where
  hrir_l : List (List ℚ)
  hrir_r : List (List ℚ)
  samplingRate : ℕ
  azi : List ℚ
  elev : List ℚ
deriving DecidableEq

/-- Modelled from the spec: `sig.HRIRs` (the class itself is outside
src/).  Spec section 3 HRTFSet: left and right impulse-response
collections indexed by grid position, the grid of (azimuth, colatitude)
pairs, and the sample rate; the constructor stores its arguments. -/
structure HRIRs where
  left : List (List ℚ)
  right : List (List ℚ)
  grid : List (ℚ × ℚ)
  fs : ℕ
deriving DecidableEq

/-- Error kinds of the pipeline (spec section 7).  `UnsupportedSampleRate`
and `MissingDefaultData` model the two `ValueError` raises of
`load_hrirs`, `SampleRateMismatch` models the asserts comparing the HRTF
sample rate with the requested one, and `ShapeMismatch` models the numpy
broadcast error raised when a row assignment length differs from the
allocated column count. -/
inductive SSRError where
  | UnsupportedSampleRate
  | MissingDefaultData
  | SampleRateMismatch
  | ShapeMismatch
deriving DecidableEq

/-- `os.path.join(dir, f)` for the relative default paths used here. -/
def os_path_join (dir f : String) : String := dir ++ "/" ++ f

/-- The dummy branch of `load_hrirs`: `np.zeros_like(h)` followed by
`h[:, 0] = np.ones(h.shape[0])`, i.e. every row becomes a unit impulse at
sample index 0. -/
def dirac_like (m : List (List ℚ)) : List (List ℚ) :=
  m.map (fun row => (row.map (fun _ => (0 : ℚ))).set 0 1)

/-- `IO.load_hrirs(fs, filename, dummy)`.  `loadmat` abstracts
`scipy.io.loadmat`, with `none` modelling `FileNotFoundError`;
`current_file_dir` is `os.path.dirname(__file__)`. -/
def load_hrirs (loadmat : String → Option MatHRTF) (current_file_dir : String)
    (fs : ℕ) (filename : Option String) (dummy : Bool) :
    Except SSRError HRIRs :=
  let resolved : Except SSRError String :=
    match filename with
    | some f => .ok f
    | none =>
        if fs = 44100 then
          .ok (os_path_join current_file_dir "../data/HRTF_default.mat")
        else if fs = 48000 then
          .ok (os_path_join current_file_dir "../data/HRTF_default48k.mat")
        else
          .error .UnsupportedSampleRate
  match resolved with
  | .error e => .error e
  | .ok fname =>
      match loadmat fname with
      | none => .error .MissingDefaultData
      | some mat =>
          let hrir_l := mat.hrir_l
          let hrir_r := mat.hrir_r
          let hrir_fs := mat.samplingRate
          let grid := mat.azi.zip mat.elev
          let hrir_l := if dummy then dirac_like hrir_l else hrir_l
          let hrir_r := if dummy then dirac_like hrir_r else hrir_r
          if hrir_fs = fs then .ok ⟨hrir_l, hrir_r, grid, hrir_fs⟩
          else .error .SampleRateMismatch

/-- `np.zeros((rows, cols))`. -/
def np_zeros (rows cols : ℕ) : List (List ℚ) :=
  List.replicate rows (List.replicate cols (0 : ℚ))

/-- Column count of a 2-D array, `a.shape[1]`. -/
def np_cols (m : List (List ℚ)) : ℕ := (m.headD []).length

/-- Modelled from the spec: `len(hrirs)`, i.e. `sig.HRIRs.__len__`, which
is outside src/.  Spec section 3: all rows of an HRTF set share one
impulse length, and the bank column rule uses that impulse length, so
`len` returns it. -/
def HRIRs.len (h : HRIRs) : ℕ := np_cols h.left

/-- Numpy row assignment `m[i, :] = v`: it succeeds only when the row
exists and `v` matches its length (otherwise numpy raises a broadcast
error). -/
def npSetRow (m : List (List ℚ)) (i : ℕ) (v : List ℚ) :
    Option (List (List ℚ)) :=
  match m[i]? with
  | none => none
  | some row => if v.length = row.length then some (m.set i v) else none

/-- One iteration of the sweep loop: write the rendered left ear into row
`2 * angle` and the right ear into row `2 * angle + 1`. -/
def sweepStep (render : ℕ → List ℚ × List ℚ) (m : List (List ℚ))
    (angle : ℕ) : Option (List (List ℚ)) := do
  let m1 ← npSetRow m (2 * angle) (render angle).1
  npSetRow m1 (2 * angle + 1) (render angle).2

/-- The `for angle in range(0, 360)` sweep loop over an allocated bank. -/
def sweep (render : ℕ → List ℚ × List ℚ) (init : List (List ℚ)) :
    Option (List (List ℚ)) :=
  (List.range 360).foldlM (sweepStep render) init

/-- `np.max(np.abs(b))`: the maximum absolute sample of a bank (0 for an
empty bank; every value compared is nonnegative). -/
def bankMaxAbs (b : List (List ℚ)) : ℚ :=
  (b.flatten.map (fun x => |x|)).foldr max 0

/-- The normalization stage shared by both writers:
`if np.max(np.abs(ssr_brirs)) > 1` then warn and divide the whole bank by
that maximum.  The Boolean records whether the warning was emitted. -/
def normalize_brirs (b : List (List ℚ)) : List (List ℚ) × Bool :=
  if 1 < bankMaxAbs b then
    (b.map (List.map (fun x => x / bankMaxAbs b)), true)
  else (b, false)

/-- `if not filename[-4:] == ".wav"` then append `.wav`. -/
def fix_wav_ext (filename : String) : String :=
  if filename.takeRight 4 = ".wav" then filename else filename ++ ".wav"

/-- The triple handed to `scipy.io.wavfile.write(filename, fs, data)`;
the float32 cast is not modelled (samples stay exact), the transpose
is. -/
structure WavFile where
  filename : String
  fs : ℕ
  data : List (List ℚ)
deriving DecidableEq

/-- `np.deg2rad`. -/
noncomputable def deg2rad (x : ℝ) : ℝ := x * (Real.pi / 180)

/-- The allocation and sweep loop of `write_ssr_brirs_loudspeaker`:
`ssr_brirs = np.zeros((720, ls_irs.shape[1] + len(hrirs) - 1))` followed
by the 360-orientation loop calling `hull.binauralize` at orientation
`(np.deg2rad(angle), 0)`.  `binauralize` abstracts the hull renderer. -/
noncomputable def assemble_loudspeaker
    (binauralize : List (List ℚ) → ℕ → ℝ × ℝ → HRIRs → List ℚ × List ℚ)
    (ls_irs : List (List ℚ)) (fs : ℕ) (hrirs : HRIRs) :
    Option (List (List ℚ)) :=
  sweep (fun angle => binauralize ls_irs fs (deg2rad angle, 0) hrirs)
    (np_zeros 720 (np_cols ls_irs + hrirs.len - 1))

/-- `IO.write_ssr_brirs_loudspeaker(filename, ls_irs, hull, fs, hrirs)`.
The hull argument is absorbed into the abstract `binauralize`
collaborator. -/
noncomputable def write_ssr_brirs_loudspeaker
    (loadmat : String → Option MatHRTF) (current_file_dir : String)
    (binauralize : List (List ℚ) → ℕ → ℝ × ℝ → HRIRs → List ℚ × List ℚ)
    (filename : String) (ls_irs : List (List ℚ)) (fs : ℕ)
    (hrirs0 : Option HRIRs) : Except SSRError WavFile := do
  let hrirs ← match hrirs0 with
    | none => load_hrirs loadmat current_file_dir fs none false
    | some h => pure h
  if hrirs.fs = fs then
    match assemble_loudspeaker binauralize ls_irs fs hrirs with
    | none => .error .ShapeMismatch
    | some b =>
        .ok ⟨fix_wav_ext filename, fs, (normalize_brirs b).1.transpose⟩
  else .error .SampleRateMismatch

/-- The rotation line of the SDM sweep:
`sdm_phi_rot = sdm_phi - np.deg2rad(angle)`, element-wise scalar
subtraction producing a new sequence; the input sequence is untouched. -/
noncomputable def sdm_phi_rot (sdm_phi : List ℝ) (angle : ℕ) : List ℝ :=
  sdm_phi.map (fun x => x - deg2rad angle)

/-- The allocation and sweep loop of `write_ssr_brirs_sdm`:
`ssr_brirs = np.zeros((720, len(sdm_p) + len(hrirs) - 1))` followed by
the 360-orientation loop calling `sdm.render_bsdm` on the rotated
azimuth.  `render_bsdm` abstracts the SDM renderer. -/
noncomputable def assemble_sdm
    (render_bsdm : List ℚ → List ℝ → List ℝ → HRIRs → List ℚ × List ℚ)
    (sdm_p : List ℚ) (sdm_phi sdm_theta : List ℝ) (hrirs : HRIRs) :
    Option (List (List ℚ)) :=
  sweep
    (fun angle =>
      render_bsdm sdm_p (sdm_phi_rot sdm_phi angle) sdm_theta hrirs)
    (np_zeros 720 (sdm_p.length + hrirs.len - 1))

/-- `IO.write_ssr_brirs_sdm(filename, sdm_p, sdm_phi, sdm_theta, fs,
hrirs)`. -/
noncomputable def write_ssr_brirs_sdm
    (loadmat : String → Option MatHRTF) (current_file_dir : String)
    (render_bsdm : List ℚ → List ℝ → List ℝ → HRIRs → List ℚ × List ℚ)
    (filename : String) (sdm_p : List ℚ) (sdm_phi sdm_theta : List ℝ)
    (fs : ℕ) (hrirs0 : Option HRIRs) : Except SSRError WavFile := do
  let hrirs ← match hrirs0 with
    | none => load_hrirs loadmat current_file_dir fs none false
    | some h => pure h
  if hrirs.fs = fs then
    match assemble_sdm render_bsdm sdm_p sdm_phi sdm_theta hrirs with
    | none => .error .ShapeMismatch
    | some b =>
        .ok ⟨fix_wav_ext filename, fs, (normalize_brirs b).1.transpose⟩
  else .error .SampleRateMismatch

/-! Helper lemmas about the sweep loop. -/

theorem np_zeros_length (rows cols : ℕ) : (np_zeros rows cols).length = rows := by
  simp [np_zeros]

theorem np_zeros_rows (rows cols : ℕ) :
    ∀ row ∈ np_zeros rows cols, row.length = cols := by
  intro row hrow
  rw [List.eq_of_mem_replicate hrow]
  simp

theorem npSetRow_eq (m : List (List ℚ)) (i : ℕ) (v row : List ℚ)
    (hrow : m[i]? = some row) (hlen : v.length = row.length) :
    npSetRow m i v = some (m.set i v) := by
  simp [npSetRow, hrow, hlen]

/-- Shape, success and row-content invariant of the first `n` iterations
of the sweep loop. -/
theorem sweep_range_spec (render : ℕ → List ℚ × List ℚ) (cols : ℕ)
    (m : List (List ℚ)) (n : ℕ)
    (hm : m.length = 720) (hrows : ∀ row ∈ m, row.length = cols)
    (hn : 2 * n ≤ 720)
    (hc : ∀ k, k < n →
      (render k).1.length = cols ∧ (render k).2.length = cols) :
    ∃ b, (List.range n).foldlM (sweepStep render) m = some b ∧
      b.length = 720 ∧ (∀ row ∈ b, row.length = cols) ∧
      (∀ k, k < n → b[2 * k]? = some (render k).1 ∧
        b[2 * k + 1]? = some (render k).2) ∧
      (∀ i, 2 * n ≤ i → b[i]? = m[i]?) := by
  induction n with
  | zero =>
      exact ⟨m, by simp, hm, hrows, fun k hk => absurd hk (by omega),
        fun i _ => rfl⟩
  | succ n ih =>
      obtain ⟨b, hb, hblen, hbrows, hpoint, htail⟩ :=
        ih (by omega) (fun k hk => hc k (by omega))
      have h2m : 2 * n < m.length := by omega
      have h2m1 : 2 * n + 1 < m.length := by omega
      -- the two rows about to be written still hold their initial value
      obtain ⟨row0, hmrow0, hrowlen0⟩ :
          ∃ row, m[2 * n]? = some row ∧ row.length = cols :=
        ⟨_, List.getElem?_eq_getElem h2m, hrows _ (List.getElem_mem h2m)⟩
      obtain ⟨row1, hmrow1, hrowlen1⟩ :
          ∃ row, m[2 * n + 1]? = some row ∧ row.length = cols :=
        ⟨_, List.getElem?_eq_getElem h2m1, hrows _ (List.getElem_mem h2m1)⟩
      have hrow0 : b[2 * n]? = some row0 := by
        rw [htail (2 * n) le_rfl]
        exact hmrow0
      have hrow1 : b[2 * n + 1]? = some row1 := by
        rw [htail (2 * n + 1) (by omega)]
        exact hmrow1
      have hset0 : npSetRow b (2 * n) (render n).1 =
          some (b.set (2 * n) (render n).1) :=
        npSetRow_eq _ _ _ _ hrow0 (by rw [(hc n (by omega)).1, hrowlen0])
      have hrow1b : (b.set (2 * n) (render n).1)[2 * n + 1]? = some row1 := by
        rw [List.getElem?_set_ne (by omega)]
        exact hrow1
      have hset1 : npSetRow (b.set (2 * n) (render n).1) (2 * n + 1)
          (render n).2 =
          some ((b.set (2 * n) (render n).1).set (2 * n + 1) (render n).2) :=
        npSetRow_eq _ _ _ _ hrow1b (by rw [(hc n (by omega)).2, hrowlen1])
      refine ⟨(b.set (2 * n) (render n).1).set (2 * n + 1) (render n).2,
        ?_, by simp [hblen], ?_, ?_, ?_⟩
      · rw [List.range_succ, List.foldlM_append, hb]
        simp [sweepStep, hset0, hset1]
      · intro row hrow
        rcases List.mem_or_eq_of_mem_set hrow with hrow | rfl
        · rcases List.mem_or_eq_of_mem_set hrow with hrow | rfl
          · exact hbrows _ hrow
          · exact (hc n (by omega)).1
        · exact (hc n (by omega)).2
      · intro k hk
        rcases Nat.lt_or_ge k n with hkn | hkn
        · constructor
          · rw [List.getElem?_set_ne (by omega), List.getElem?_set_ne (by omega)]
            exact (hpoint k hkn).1
          · rw [List.getElem?_set_ne (by omega), List.getElem?_set_ne (by omega)]
            exact (hpoint k hkn).2
        · have hk' : k = n := by omega
          subst hk'
          constructor
          · rw [List.getElem?_set_ne (by omega)]
            exact List.getElem?_set_self (by omega)
          · exact List.getElem?_set_self
              (by simp only [List.length_set, hblen]; omega)
      · intro i hi
        rw [List.getElem?_set_ne (by omega), List.getElem?_set_ne (by omega)]
        exact htail i (by omega)

/-- Full sweep: success, shape and row contents, starting from the
allocated zero bank. -/
theorem sweep_spec (render : ℕ → List ℚ × List ℚ) (cols : ℕ)
    (hc : ∀ k : ℕ, k < 360 →
      (render k).1.length = cols ∧ (render k).2.length = cols) :
    ∃ b, sweep render (np_zeros 720 cols) = some b ∧
      b.length = 720 ∧ (∀ row ∈ b, row.length = cols) ∧
      (∀ k, k < 360 → b[2 * k]? = some (render k).1 ∧
        b[2 * k + 1]? = some (render k).2) := by
  obtain ⟨b, hb, h1, h2, h3, _⟩ :=
    sweep_range_spec render cols (np_zeros 720 cols) 360
      (np_zeros_length 720 cols) (np_zeros_rows 720 cols) (by omega) hc
  exact ⟨b, hb, h1, h2, h3⟩

/-! Helper lemmas about the normalizer. -/

theorem foldr_max_abs_div (l : List ℚ) (M : ℚ) (hM : 0 < M) :
    ((l.map (fun x => x / M)).map (fun x => |x|)).foldr max 0 =
      ((l.map (fun x => |x|)).foldr max 0) / M := by
  induction l with
  | nil => simp
  | cons a l ih =>
      simp only [List.map_cons, List.foldr_cons, ih]
      rw [abs_div, abs_of_pos hM, max_div_div_right hM.le]

theorem bankMaxAbs_scale (b : List (List ℚ)) (M : ℚ) (hM : 0 < M) :
    bankMaxAbs (b.map (List.map (fun x => x / M))) = bankMaxAbs b / M := by
  unfold bankMaxAbs
  rw [show (b.map (List.map (fun x => x / M))).flatten =
      b.flatten.map (fun x => x / M) from (List.map_flatten _ b).symm]
  exact foldr_max_abs_div b.flatten M hM

theorem foldr_max_abs_all_zero (l : List ℚ) (h : ∀ x ∈ l, x = 0) :
    (l.map (fun x => |x|)).foldr max 0 = 0 := by
  induction l with
  | nil => simp
  | cons a l ih =>
      simp only [List.map_cons, List.foldr_cons]
      rw [h a (List.mem_cons_self a l),
        ih (fun x hx => h x (List.mem_cons_of_mem a hx))]
      simp

theorem bankMaxAbs_np_zeros (rows cols : ℕ) :
    bankMaxAbs (np_zeros rows cols) = 0 := by
  apply foldr_max_abs_all_zero
  intro x hx
  obtain ⟨row, hrow, hxrow⟩ := List.mem_flatten.1 hx
  rw [List.eq_of_mem_replicate hrow] at hxrow
  exact List.eq_of_mem_replicate hxrow

theorem normalize_brirs_pos (b : List (List ℚ)) (h : 1 < bankMaxAbs b) :
    normalize_brirs b =
      (b.map (List.map (fun x => x / bankMaxAbs b)), true) := by
  simp [normalize_brirs, h]

theorem normalize_brirs_le (b : List (List ℚ)) (h : ¬ 1 < bankMaxAbs b) :
    normalize_brirs b = (b, false) := by
  simp [normalize_brirs, h]

theorem bankMaxAbs_normalize (b : List (List ℚ)) (h : 1 < bankMaxAbs b) :
    bankMaxAbs (normalize_brirs b).1 = 1 := by
  have h0 : (0 : ℚ) < bankMaxAbs b := lt_trans one_pos h
  rw [normalize_brirs_pos b h]
  exact (bankMaxAbs_scale b _ h0).trans (div_self (ne_of_gt h0))

/-- C3: the normalizer computes the maximum absolute sample over the
whole bank; if it exceeds 1 every sample is divided by that maximum (so
the new maximum absolute sample equals 1) and the warning flag is set;
otherwise the bank is returned unchanged with no warning. -/
theorem normalize_correct (b : List (List ℚ)) :
    (1 < bankMaxAbs b →
      normalize_brirs b =
        (b.map (List.map (fun x => x / bankMaxAbs b)), true) ∧
      bankMaxAbs (normalize_brirs b).1 = 1) ∧
    (¬ 1 < bankMaxAbs b → normalize_brirs b = (b, false)) :=
  ⟨fun h => ⟨normalize_brirs_pos b h, bankMaxAbs_normalize b h⟩,
   fun h => normalize_brirs_le b h⟩

/-- Witness for C3 at concrete banks: a clipping bank is rescaled to
maximum 1 with the warning set, a non-clipping bank is unchanged. -/
theorem normalize_correct_witness :
    (normalize_brirs [[2]] =
      ([[2]].map (List.map (fun x => x / bankMaxAbs [[2]])), true) ∧
      bankMaxAbs (normalize_brirs [[2]]).1 = 1) ∧
    normalize_brirs [[(1 : ℚ)]] = ([[(1 : ℚ)]], false) :=
  ⟨(normalize_correct [[2]]).1 (by decide),
   (normalize_correct [[(1 : ℚ)]]).2 (by decide)⟩

/-- C8: the normalizer is idempotent: applying it twice yields the same
bank as applying it once. -/
theorem normalize_idempotent (b : List (List ℚ)) :
    (normalize_brirs (normalize_brirs b).1).1 = (normalize_brirs b).1 := by
  by_cases h : 1 < bankMaxAbs b
  · have h1 := bankMaxAbs_normalize b h
    rw [normalize_brirs_le _ (by rw [h1]; exact lt_irrefl 1)]
  · rw [normalize_brirs_le b h]
    rw [normalize_brirs_le b h]

/-- C9: the division of the normalizer is guarded by `max > 1`, so the
divisor is never zero where a division happens; in particular an all-zero
bank has maximum 0 and is returned unchanged. -/
theorem normalize_guard (b : List (List ℚ)) (rows cols : ℕ) :
    (1 < bankMaxAbs b → bankMaxAbs b ≠ 0) ∧
    bankMaxAbs (np_zeros rows cols) = 0 ∧
    normalize_brirs (np_zeros rows cols) = (np_zeros rows cols, false) :=
  ⟨fun h => ne_of_gt (lt_trans one_pos h),
   bankMaxAbs_np_zeros rows cols,
   normalize_brirs_le _ (by rw [bankMaxAbs_np_zeros]; decide)⟩

/-- Witness for C9 at a concrete clipping bank and a concrete all-zero
bank. -/
theorem normalize_guard_witness :
    bankMaxAbs [[2]] ≠ 0 ∧ bankMaxAbs (np_zeros 2 3) = 0 ∧
    normalize_brirs (np_zeros 2 3) = (np_zeros 2 3, false) :=
  ⟨(normalize_guard [[2]] 2 3).1 (by decide),
   (normalize_guard [[2]] 2 3).2.1,
   (normalize_guard [[2]] 2 3).2.2⟩

/-! The sweep claims. -/

theorem deg2rad_nat (k : ℕ) : (k : ℝ) * Real.pi / 180 = deg2rad (k : ℝ) := by
  unfold deg2rad
  rw [mul_div_assoc]

theorem sdm_phi_rot_eq_map (phi : List ℝ) (k : ℕ) :
    sdm_phi_rot phi k = phi.map (fun x => x - (k : ℝ) * Real.pi / 180) := by
  unfold sdm_phi_rot
  simp only [deg2rad, mul_div_assoc]

/-- C1: for every valid invocation (renderers honouring the spec contract
of returning rows of the full convolution length), the assembled bank of
both sweep variants has exactly 720 rows and
`sourceLength + hrirLength - 1` columns. -/
theorem assembled_bank_shape
    (binauralize : List (List ℚ) → ℕ → ℝ × ℝ → HRIRs → List ℚ × List ℚ)
    (render_bsdm : List ℚ → List ℝ → List ℝ → HRIRs → List ℚ × List ℚ)
    (ls_irs : List (List ℚ)) (fs : ℕ) (hrirs : HRIRs)
    (sdm_p : List ℚ) (sdm_phi sdm_theta : List ℝ)
    (hcL : ∀ k : ℕ, k < 360 →
      (binauralize ls_irs fs (deg2rad k, 0) hrirs).1.length =
        np_cols ls_irs + hrirs.len - 1 ∧
      (binauralize ls_irs fs (deg2rad k, 0) hrirs).2.length =
        np_cols ls_irs + hrirs.len - 1)
    (hcS : ∀ k : ℕ, k < 360 →
      (render_bsdm sdm_p (sdm_phi_rot sdm_phi k) sdm_theta hrirs).1.length =
        sdm_p.length + hrirs.len - 1 ∧
      (render_bsdm sdm_p (sdm_phi_rot sdm_phi k) sdm_theta hrirs).2.length =
        sdm_p.length + hrirs.len - 1) :
    (∃ b, assemble_loudspeaker binauralize ls_irs fs hrirs = some b ∧
      b.length = 720 ∧
      ∀ row ∈ b, row.length = np_cols ls_irs + hrirs.len - 1) ∧
    (∃ b, assemble_sdm render_bsdm sdm_p sdm_phi sdm_theta hrirs = some b ∧
      b.length = 720 ∧
      ∀ row ∈ b, row.length = sdm_p.length + hrirs.len - 1) := by
  constructor
  · obtain ⟨b, hb, h1, h2, _⟩ := sweep_spec
      (fun angle => binauralize ls_irs fs (deg2rad angle, 0) hrirs)
      (np_cols ls_irs + hrirs.len - 1) hcL
    exact ⟨b, hb, h1, h2⟩
  · obtain ⟨b, hb, h1, h2, _⟩ := sweep_spec
      (fun angle => render_bsdm sdm_p (sdm_phi_rot sdm_phi angle) sdm_theta hrirs)
      (sdm_p.length + hrirs.len - 1) hcS
    exact ⟨b, hb, h1, h2⟩

/-- Witness for C1 at concrete inputs (1-sample sources, 1-sample
HRIRs, trivial renderers honouring the length contract). -/
theorem assembled_bank_shape_witness :
    (∃ b, assemble_loudspeaker (fun _ _ _ _ => ([0], [0])) [[0]] 48000
        ⟨[[0]], [[0]], [], 48000⟩ = some b ∧
      b.length = 720 ∧
      ∀ row ∈ b, row.length =
        np_cols [[0]] + HRIRs.len ⟨[[0]], [[0]], [], 48000⟩ - 1) ∧
    (∃ b, assemble_sdm (fun _ _ _ _ => ([0], [0])) [(0 : ℚ)] [] []
        ⟨[[0]], [[0]], [], 48000⟩ = some b ∧
      b.length = 720 ∧
      ∀ row ∈ b, row.length =
        [(0 : ℚ)].length + HRIRs.len ⟨[[0]], [[0]], [], 48000⟩ - 1) :=
  assembled_bank_shape (fun _ _ _ _ => ([0], [0]))
    (fun _ _ _ _ => ([0], [0])) [[0]] 48000 ⟨[[0]], [[0]], [], 48000⟩
    [(0 : ℚ)] [] [] (fun _ _ => ⟨rfl, rfl⟩) (fun _ _ => ⟨rfl, rfl⟩)

/-- C2: for every orientation `k < 360`, row `2k` of the assembled bank
is the left-ear output and row `2k + 1` the right-ear output of the
render invoked for orientation `k`: hull binauralization at
`(k * pi / 180, 0)` in the array variant, the SDM renderer on the
rotated azimuth in the room variant. -/
theorem bank_row_correspondence
    (binauralize : List (List ℚ) → ℕ → ℝ × ℝ → HRIRs → List ℚ × List ℚ)
    (render_bsdm : List ℚ → List ℝ → List ℝ → HRIRs → List ℚ × List ℚ)
    (ls_irs : List (List ℚ)) (fs : ℕ) (hrirs : HRIRs)
    (sdm_p : List ℚ) (sdm_phi sdm_theta : List ℝ)
    (hcL : ∀ k : ℕ, k < 360 →
      (binauralize ls_irs fs ((k : ℝ) * Real.pi / 180, 0) hrirs).1.length =
        np_cols ls_irs + hrirs.len - 1 ∧
      (binauralize ls_irs fs ((k : ℝ) * Real.pi / 180, 0) hrirs).2.length =
        np_cols ls_irs + hrirs.len - 1)
    (hcS : ∀ k : ℕ, k < 360 →
      (render_bsdm sdm_p (sdm_phi_rot sdm_phi k) sdm_theta hrirs).1.length =
        sdm_p.length + hrirs.len - 1 ∧
      (render_bsdm sdm_p (sdm_phi_rot sdm_phi k) sdm_theta hrirs).2.length =
        sdm_p.length + hrirs.len - 1) :
    (∃ b, assemble_loudspeaker binauralize ls_irs fs hrirs = some b ∧
      ∀ k : ℕ, k < 360 →
        b[2 * k]? =
          some (binauralize ls_irs fs ((k : ℝ) * Real.pi / 180, 0) hrirs).1 ∧
        b[2 * k + 1]? =
          some (binauralize ls_irs fs ((k : ℝ) * Real.pi / 180, 0) hrirs).2) ∧
    (∃ b, assemble_sdm render_bsdm sdm_p sdm_phi sdm_theta hrirs = some b ∧
      ∀ k : ℕ, k < 360 →
        b[2 * k]? =
          some (render_bsdm sdm_p (sdm_phi_rot sdm_phi k) sdm_theta hrirs).1 ∧
        b[2 * k + 1]? =
          some (render_bsdm sdm_p (sdm_phi_rot sdm_phi k) sdm_theta hrirs).2) := by
  simp only [deg2rad_nat] at hcL ⊢
  constructor
  · obtain ⟨b, hb, _, _, h3⟩ := sweep_spec
      (fun angle => binauralize ls_irs fs (deg2rad angle, 0) hrirs)
      (np_cols ls_irs + hrirs.len - 1) hcL
    exact ⟨b, hb, h3⟩
  · obtain ⟨b, hb, _, _, h3⟩ := sweep_spec
      (fun angle => render_bsdm sdm_p (sdm_phi_rot sdm_phi angle) sdm_theta hrirs)
      (sdm_p.length + hrirs.len - 1) hcS
    exact ⟨b, hb, h3⟩

/-- Witness for C2 at concrete inputs. -/
theorem bank_row_correspondence_witness :
    (∃ b, assemble_loudspeaker (fun _ _ _ _ => ([0], [0])) [[0]] 48000
        ⟨[[0]], [[0]], [], 48000⟩ = some b ∧
      ∀ k : ℕ, k < 360 →
        b[2 * k]? = some ((fun (_ : List (List ℚ)) (_ : ℕ) (_ : ℝ × ℝ)
            (_ : HRIRs) => (([0], [0]) : List ℚ × List ℚ)) [[0]] 48000
            ((k : ℝ) * Real.pi / 180, 0) ⟨[[0]], [[0]], [], 48000⟩).1 ∧
        b[2 * k + 1]? = some ((fun (_ : List (List ℚ)) (_ : ℕ) (_ : ℝ × ℝ)
            (_ : HRIRs) => (([0], [0]) : List ℚ × List ℚ)) [[0]] 48000
            ((k : ℝ) * Real.pi / 180, 0) ⟨[[0]], [[0]], [], 48000⟩).2) ∧
    (∃ b, assemble_sdm (fun _ _ _ _ => ([0], [0])) [(0 : ℚ)] [] []
        ⟨[[0]], [[0]], [], 48000⟩ = some b ∧
      ∀ k : ℕ, k < 360 →
        b[2 * k]? = some ((fun (_ : List ℚ) (_ : List ℝ) (_ : List ℝ)
            (_ : HRIRs) => (([0], [0]) : List ℚ × List ℚ)) [(0 : ℚ)]
            (sdm_phi_rot [] k) [] ⟨[[0]], [[0]], [], 48000⟩).1 ∧
        b[2 * k + 1]? = some ((fun (_ : List ℚ) (_ : List ℝ) (_ : List ℝ)
            (_ : HRIRs) => (([0], [0]) : List ℚ × List ℚ)) [(0 : ℚ)]
            (sdm_phi_rot [] k) [] ⟨[[0]], [[0]], [], 48000⟩).2) :=
  bank_row_correspondence (fun _ _ _ _ => ([0], [0]))
    (fun _ _ _ _ => ([0], [0])) [[0]] 48000 ⟨[[0]], [[0]], [], 48000⟩
    [(0 : ℚ)] [] [] (fun _ _ => ⟨rfl, rfl⟩) (fun _ _ => ⟨rfl, rfl⟩)

/-- C5: in the room variant the rotation for orientation `k` subtracts
`k * pi / 180` from every element of the azimuth sequence (a fresh
sequence computed from the original input at every orientation, so the
input azimuth sequence is never modified), while the pressure and
colatitude sequences reach the renderer unmodified. -/
theorem sdm_rotation_spec
    (render_bsdm : List ℚ → List ℝ → List ℝ → HRIRs → List ℚ × List ℚ)
    (sdm_p : List ℚ) (sdm_phi sdm_theta : List ℝ) (hrirs : HRIRs)
    (hc : ∀ k : ℕ, k < 360 →
      (render_bsdm sdm_p (sdm_phi.map (fun x => x - (k : ℝ) * Real.pi / 180))
        sdm_theta hrirs).1.length = sdm_p.length + hrirs.len - 1 ∧
      (render_bsdm sdm_p (sdm_phi.map (fun x => x - (k : ℝ) * Real.pi / 180))
        sdm_theta hrirs).2.length = sdm_p.length + hrirs.len - 1) :
    (∀ (phi : List ℝ) (k : ℕ),
      (sdm_phi_rot phi k).length = phi.length ∧
      ∀ i : ℕ, (sdm_phi_rot phi k)[i]? =
        (phi[i]?).map (fun x => x - (k : ℝ) * Real.pi / 180)) ∧
    (∃ b, assemble_sdm render_bsdm sdm_p sdm_phi sdm_theta hrirs = some b ∧
      ∀ k : ℕ, k < 360 →
        b[2 * k]? = some (render_bsdm sdm_p
          (sdm_phi.map (fun x => x - (k : ℝ) * Real.pi / 180))
          sdm_theta hrirs).1 ∧
        b[2 * k + 1]? = some (render_bsdm sdm_p
          (sdm_phi.map (fun x => x - (k : ℝ) * Real.pi / 180))
          sdm_theta hrirs).2) := by
  constructor
  · intro phi k
    rw [sdm_phi_rot_eq_map]
    exact ⟨List.length_map phi _, fun i => List.getElem?_map _ phi i⟩
  · simp only [← sdm_phi_rot_eq_map] at hc
    obtain ⟨b, hb, _, _, h3⟩ := sweep_spec
      (fun angle => render_bsdm sdm_p (sdm_phi_rot sdm_phi angle) sdm_theta hrirs)
      (sdm_p.length + hrirs.len - 1) hc
    refine ⟨b, hb, ?_⟩
    simp only [← sdm_phi_rot_eq_map]
    exact h3

/-- Witness for C5 at concrete inputs. -/
theorem sdm_rotation_spec_witness :
    ((sdm_phi_rot [(0 : ℝ)] 90).length = [(0 : ℝ)].length ∧
      (sdm_phi_rot [(0 : ℝ)] 90)[0]? =
        ([(0 : ℝ)][0]?).map (fun x => x - ((90 : ℕ) : ℝ) * Real.pi / 180)) ∧
    (∃ b, assemble_sdm (fun _ _ _ _ => ([0], [0])) [(0 : ℚ)] [(0 : ℝ)] []
        ⟨[[0]], [[0]], [], 48000⟩ = some b ∧
      ∀ k : ℕ, k < 360 →
        b[2 * k]? = some ((fun (_ : List ℚ) (_ : List ℝ) (_ : List ℝ)
            (_ : HRIRs) => (([0], [0]) : List ℚ × List ℚ)) [(0 : ℚ)]
            ([(0 : ℝ)].map (fun x => x - (k : ℝ) * Real.pi / 180)) []
            ⟨[[0]], [[0]], [], 48000⟩).1 ∧
        b[2 * k + 1]? = some ((fun (_ : List ℚ) (_ : List ℝ) (_ : List ℝ)
            (_ : HRIRs) => (([0], [0]) : List ℚ × List ℚ)) [(0 : ℚ)]
            ([(0 : ℝ)].map (fun x => x - (k : ℝ) * Real.pi / 180)) []
            ⟨[[0]], [[0]], [], 48000⟩).2) := by
  have h := sdm_rotation_spec (fun _ _ _ _ => ([0], [0])) [(0 : ℚ)]
    [(0 : ℝ)] [] ⟨[[0]], [[0]], [], 48000⟩ (fun _ _ => ⟨rfl, rfl⟩)
  exact ⟨⟨(h.1 [(0 : ℝ)] 90).1, (h.1 [(0 : ℝ)] 90).2 0⟩, h.2⟩

/-! The loader and sample-rate claims. -/

theorem load_hrirs_none_44100 (loadmat : String → Option MatHRTF)
    (current_file_dir : String) (dummy : Bool) :
    load_hrirs loadmat current_file_dir 44100 none dummy =
      load_hrirs loadmat current_file_dir 44100
        (some (os_path_join current_file_dir "../data/HRTF_default.mat"))
        dummy := rfl

theorem load_hrirs_none_48000 (loadmat : String → Option MatHRTF)
    (current_file_dir : String) (dummy : Bool) :
    load_hrirs loadmat current_file_dir 48000 none dummy =
      load_hrirs loadmat current_file_dir 48000
        (some (os_path_join current_file_dir "../data/HRTF_default48k.mat"))
        dummy := rfl

theorem load_hrirs_none_other (loadmat : String → Option MatHRTF)
    (current_file_dir : String) (dummy : Bool) (fs : ℕ)
    (h44 : fs ≠ 44100) (h48 : fs ≠ 48000) :
    load_hrirs loadmat current_file_dir fs none dummy =
      .error .UnsupportedSampleRate := by
  simp [load_hrirs, h44, h48]

/-- C4: when the given HRTF set carries a sample rate different from the
declared one, both writers fail with `SampleRateMismatch`; the renderer
is universally quantified, so no rendering can have been consulted, and
the error result carries no bank and no output file. -/
theorem samplerate_mismatch_fail
    (loadmat : String → Option MatHRTF) (current_file_dir : String)
    (binauralize : List (List ℚ) → ℕ → ℝ × ℝ → HRIRs → List ℚ × List ℚ)
    (render_bsdm : List ℚ → List ℝ → List ℝ → HRIRs → List ℚ × List ℚ)
    (filename : String) (ls_irs : List (List ℚ)) (sdm_p : List ℚ)
    (sdm_phi sdm_theta : List ℝ) (fs : ℕ) (hrirs : HRIRs)
    (hne : hrirs.fs ≠ fs) :
    write_ssr_brirs_loudspeaker loadmat current_file_dir binauralize
      filename ls_irs fs (some hrirs) = .error .SampleRateMismatch ∧
    write_ssr_brirs_sdm loadmat current_file_dir render_bsdm filename
      sdm_p sdm_phi sdm_theta fs (some hrirs) =
        .error .SampleRateMismatch := by
  constructor
  · simp [write_ssr_brirs_loudspeaker, hne]
  · simp [write_ssr_brirs_sdm, hne]

/-- Witness for C4: a 44100 Hz HRTF set against a declared rate of
48000 Hz. -/
theorem samplerate_mismatch_fail_witness :
    write_ssr_brirs_loudspeaker (fun _ => none) ""
      (fun _ _ _ _ => ([], [])) "brirs" [] 48000
      (some ⟨[], [], [], 44100⟩) = .error .SampleRateMismatch ∧
    write_ssr_brirs_sdm (fun _ => none) "" (fun _ _ _ _ => ([], []))
      "brirs" [] [] [] 48000 (some ⟨[], [], [], 44100⟩) =
        .error .SampleRateMismatch :=
  samplerate_mismatch_fail (fun _ => none) "" (fun _ _ _ _ => ([], []))
    (fun _ _ _ _ => ([], [])) "brirs" [] [] [] [] 48000
    ⟨[], [], [], 44100⟩ (by decide)

/-- C6: with no source file the provider uses the built-in default
selected by the requested sample rate (the 44100 and 48000 container
paths respectively), and any other rate fails with
`UnsupportedSampleRate`. -/
theorem default_hrtf_selection (loadmat : String → Option MatHRTF)
    (current_file_dir : String) (dummy : Bool) (fs : ℕ)
    (h44 : fs ≠ 44100) (h48 : fs ≠ 48000) :
    load_hrirs loadmat current_file_dir 44100 none dummy =
      load_hrirs loadmat current_file_dir 44100
        (some (os_path_join current_file_dir "../data/HRTF_default.mat"))
        dummy ∧
    load_hrirs loadmat current_file_dir 48000 none dummy =
      load_hrirs loadmat current_file_dir 48000
        (some (os_path_join current_file_dir "../data/HRTF_default48k.mat"))
        dummy ∧
    load_hrirs loadmat current_file_dir fs none dummy =
      .error .UnsupportedSampleRate :=
  ⟨load_hrirs_none_44100 loadmat current_file_dir dummy,
   load_hrirs_none_48000 loadmat current_file_dir dummy,
   load_hrirs_none_other loadmat current_file_dir dummy fs h44 h48⟩

/-- Witness for C6 at a missing container and the unsupported rate
22050. -/
theorem default_hrtf_selection_witness :
    (load_hrirs (fun _ => none) "" 44100 none false =
      load_hrirs (fun _ => none) "" 44100
        (some (os_path_join "" "../data/HRTF_default.mat")) false) ∧
    (load_hrirs (fun _ => none) "" 48000 none false =
      load_hrirs (fun _ => none) "" 48000
        (some (os_path_join "" "../data/HRTF_default48k.mat")) false) ∧
    load_hrirs (fun _ => none) "" 22050 none false =
      .error .UnsupportedSampleRate :=
  default_hrtf_selection (fun _ => none) "" false 22050
    (by decide) (by decide)

/-- C7: in dummy mode the returned left and right collections are the
dirac substitutes of the loaded arrays: same shape, value 1 at sample
index 0 and 0 at every other sample index, for every grid position. -/
theorem dummy_hrirs_dirac (loadmat : String → Option MatHRTF)
    (current_file_dir fname : String) (fs : ℕ) (mat : MatHRTF)
    (hload : loadmat fname = some mat) (hfs : mat.samplingRate = fs) :
    load_hrirs loadmat current_file_dir fs (some fname) true =
      .ok ⟨dirac_like mat.hrir_l, dirac_like mat.hrir_r,
        mat.azi.zip mat.elev, mat.samplingRate⟩ ∧
    (∀ (m : List (List ℚ)) (i : ℕ),
      (dirac_like m).length = m.length ∧
      (dirac_like m)[i]? =
        (m[i]?).map (fun row => (row.map (fun _ => (0 : ℚ))).set 0 1)) ∧
    (∀ (row : List ℚ) (j : ℕ),
      ((row.map (fun _ => (0 : ℚ))).set 0 1).length = row.length ∧
      (j < row.length →
        ((row.map (fun _ => (0 : ℚ))).set 0 1)[j]? =
          some (if j = 0 then 1 else 0))) := by
  refine ⟨?_, ?_, ?_⟩
  · simp [load_hrirs, hload, hfs]
  · intro m i
    exact ⟨by simp [dirac_like], by simp [dirac_like]⟩
  · intro row j
    refine ⟨by simp, fun hj => ?_⟩
    rcases Nat.eq_zero_or_pos j with rfl | hjpos
    · have h0 : 0 < (row.map (fun _ => (0 : ℚ))).length := by simpa using hj
      simpa using List.getElem?_set_self h0
    · rw [List.getElem?_set_ne (by omega), List.getElem?_map,
        List.getElem?_eq_getElem hj]
      simp [hjpos.ne']

/-- Witness for C7 at a concrete 1-position, 2-sample container. -/
theorem dummy_hrirs_dirac_witness :
    load_hrirs (fun _ => some ⟨[[(5 : ℚ), 6]], [[(7 : ℚ), 8]], 48000,
        [0], [0]⟩) "" 48000 (some "HRTF.mat") true =
      .ok ⟨dirac_like [[(5 : ℚ), 6]], dirac_like [[(7 : ℚ), 8]],
        [(0 : ℚ)].zip [(0 : ℚ)], 48000⟩ ∧
    ((dirac_like [[(5 : ℚ), 6]]).length = [[(5 : ℚ), 6]].length ∧
      (dirac_like [[(5 : ℚ), 6]])[0]? =
        ([[(5 : ℚ), 6]][0]?).map
          (fun row => (row.map (fun _ => (0 : ℚ))).set 0 1)) ∧
    (([(5 : ℚ), 6].map (fun _ => (0 : ℚ))).set 0 1).length =
      [(5 : ℚ), 6].length ∧
    (([(5 : ℚ), 6].map (fun _ => (0 : ℚ))).set 0 1)[1]? =
      some (if (1 : ℕ) = 0 then (1 : ℚ) else 0) := by
  have h := dummy_hrirs_dirac
    (fun _ => some ⟨[[(5 : ℚ), 6]], [[(7 : ℚ), 8]], 48000, [0], [0]⟩)
    "" "HRTF.mat" 48000
    ⟨[[(5 : ℚ), 6]], [[(7 : ℚ), 8]], 48000, [0], [0]⟩ rfl rfl
  exact ⟨h.1, h.2.1 [[(5 : ℚ), 6]] 0, (h.2.2 [(5 : ℚ), 6] 1).1,
    (h.2.2 [(5 : ℚ), 6] 1).2 (by decide)⟩

/-- C10: dummy mode does not bypass container loading: a dummy call
fails exactly when the corresponding non-dummy call fails (same error),
and on success the grid and the sample rate agree with the non-dummy
result. -/
theorem dummy_mode_same_failures (loadmat : String → Option MatHRTF)
    (current_file_dir : String) (fs : ℕ) (filename : Option String) :
    (∀ e, load_hrirs loadmat current_file_dir fs filename true = .error e ↔
      load_hrirs loadmat current_file_dir fs filename false = .error e) ∧
    (∀ H1 H2,
      load_hrirs loadmat current_file_dir fs filename true = .ok H1 →
      load_hrirs loadmat current_file_dir fs filename false = .ok H2 →
      H1.grid = H2.grid ∧ H1.fs = H2.fs) := by
  have main : ∀ fname : String,
      (∀ e, load_hrirs loadmat current_file_dir fs (some fname) true =
          .error e ↔
        load_hrirs loadmat current_file_dir fs (some fname) false =
          .error e) ∧
      (∀ H1 H2,
        load_hrirs loadmat current_file_dir fs (some fname) true = .ok H1 →
        load_hrirs loadmat current_file_dir fs (some fname) false =
          .ok H2 →
        H1.grid = H2.grid ∧ H1.fs = H2.fs) := by
    intro fname
    rcases hlm : loadmat fname with _ | mat
    · constructor
      · intro e
        simp [load_hrirs, hlm]
      · intro H1 H2 h1 _
        simp [load_hrirs, hlm] at h1
    · by_cases hsr : mat.samplingRate = fs
      · constructor
        · intro e
          simp [load_hrirs, hlm, hsr]
        · intro H1 H2 h1 h2
          simp [load_hrirs, hlm, hsr] at h1 h2
          subst h1
          subst h2
          exact ⟨rfl, rfl⟩
      · constructor
        · intro e
          simp [load_hrirs, hlm, hsr]
        · intro H1 H2 h1 _
          simp [load_hrirs, hlm, hsr] at h1
  rcases filename with _ | f
  · by_cases h44 : fs = 44100
    · subst h44
      simp only [load_hrirs_none_44100]
      exact main _
    · by_cases h48 : fs = 48000
      · subst h48
        simp only [load_hrirs_none_48000]
        exact main _
      · constructor
        · intro e
          rw [load_hrirs_none_other loadmat current_file_dir true fs h44 h48,
            load_hrirs_none_other loadmat current_file_dir false fs h44 h48]
        · intro H1 H2 h1 _
          rw [load_hrirs_none_other loadmat current_file_dir true fs
            h44 h48] at h1
          exact absurd h1 (by simp)
  · exact main f

/-- Witness for C10: a missing container fails identically in both
modes; a present, rate-matching container succeeds in both modes with
the same grid and sample rate. -/
theorem dummy_mode_same_failures_witness :
    ((load_hrirs (fun _ => none) "" 48000 none true =
        .error .MissingDefaultData) ↔
      (load_hrirs (fun _ => none) "" 48000 none false =
        .error .MissingDefaultData)) ∧
    ((⟨dirac_like [[(2 : ℚ)]], dirac_like [[(3 : ℚ)]],
        [(0 : ℚ)].zip [(0 : ℚ)], 48000⟩ : HRIRs).grid =
      (⟨[[(2 : ℚ)]], [[(3 : ℚ)]],
        [(0 : ℚ)].zip [(0 : ℚ)], 48000⟩ : HRIRs).grid ∧
      (⟨dirac_like [[(2 : ℚ)]], dirac_like [[(3 : ℚ)]],
        [(0 : ℚ)].zip [(0 : ℚ)], 48000⟩ : HRIRs).fs =
      (⟨[[(2 : ℚ)]], [[(3 : ℚ)]],
        [(0 : ℚ)].zip [(0 : ℚ)], 48000⟩ : HRIRs).fs) := by
  have h1 := dummy_mode_same_failures (fun _ => none) "" 48000 none
  have h2 := dummy_mode_same_failures
    (fun _ => some ⟨[[(2 : ℚ)]], [[(3 : ℚ)]], 48000, [0], [0]⟩) ""
    48000 none
  exact ⟨h1.1 .MissingDefaultData,
    h2.2 ⟨dirac_like [[(2 : ℚ)]], dirac_like [[(3 : ℚ)]],
        [(0 : ℚ)].zip [(0 : ℚ)], 48000⟩
      ⟨[[(2 : ℚ)]], [[(3 : ℚ)]], [(0 : ℚ)].zip [(0 : ℚ)], 48000⟩
      rfl rfl⟩

end Spaudiopy
